import Mathlib

/-!
Verification of the agentic-ecommerce core: a shallow embedding in Lean 4 of
the cart store (`src/utils/cart.py`), the purchase transaction engine
(`src/querying/tools/order.py`), the similarity-threshold filter
(`src/utils/similarity.py`), the product-search price post-filter
(`src/querying/tools/retrieval.py`), the orchestrator routing logic
(`src/querying/agents/orchestrator.py`) and the order-agent tool loop
(`src/querying/agents/order.py`), together with theorems settling the
specification claims about them.

Modelling conventions: Python floats for money and scores are embedded as
exact rationals (`ℚ`); Python ints as `ℤ`; database rows as structures in
lists; the in-process cart map as a function from session id to the list of
that session's items.  Effectful code is embedded by explicit state passing.
-/

namespace AgenticEcommerce

/-! ## Cart store (`src/utils/cart.py`) -/

/-- CartItem dataclass from `src/utils/cart.py`: a line item owned by one
session's cart. -/
structure CartItem where
  product_id : ℤ
  product_name : String
  quantity : ℤ
  unit_price : ℚ
  primary_image : Option String := none
deriving DecidableEq, Repr

/-- The `subtotal` property: `unit_price * quantity`, computed, never stored. -/
def CartItem.subtotal (item : CartItem) : ℚ :=
  item.unit_price * item.quantity

/-- Result dictionary returned by the cart-mutating methods of `CartManager`:
keys `success`, `message`, `cart_total`, `item_count`. -/
structure CartOpResult where
  success : Bool
  message : String
  cart_total : ℚ
  item_count : ℕ
deriving DecidableEq, Repr

/-- `CartManager.get_cart_total`: `sum(item.subtotal for item in cart)`. -/
def get_cart_total (cart : List CartItem) : ℚ :=
  (cart.map CartItem.subtotal).sum

/-- `CartManager.add_to_cart`: scans the session's cart for the product id;
if present, fails with a message directing to `edit_item_in_cart` and leaves
the cart unchanged; otherwise appends a new `CartItem`. -/
def add_to_cart (cart : List CartItem) (product_id : ℤ) (product_name : String)
    (quantity : ℤ) (unit_price : ℚ) (primary_image : Option String) :
    List CartItem × CartOpResult :=
  if cart.any (fun item => item.product_id == product_id) then
    (cart,
      { success := false
        message := product_name ++
          " is already in your cart. Use edit_item_in_cart to update the quantity."
        cart_total := get_cart_total cart
        item_count := cart.length })
  else
    let cart' := cart ++ [⟨product_id, product_name, quantity, unit_price, primary_image⟩]
    (cart',
      { success := true
        message := "Added " ++ toString quantity ++ "x " ++ product_name ++ " to cart"
        cart_total := get_cart_total cart'
        item_count := cart'.length })

/-- Helper for `edit_item_in_cart`: the `for item in cart` loop that updates
the quantity of the first item matching the product id, returning the updated
cart and that item's name, or `none` when no item matches. -/
def edit_item_go (product_id : ℤ) (quantity : ℤ) :
    List CartItem → Option (List CartItem × String)
  | [] => none
  | item :: rest =>
    if item.product_id = product_id then
      some ({ item with quantity := quantity } :: rest, item.product_name)
    else
      (edit_item_go product_id quantity rest).map (fun p => (item :: p.1, p.2))

/-- `CartManager.edit_item_in_cart`: rejects a non-positive quantity, updates
the first matching item in place, or fails when the product is absent. -/
def edit_item_in_cart (cart : List CartItem) (product_id : ℤ) (quantity : ℤ) :
    List CartItem × CartOpResult :=
  if quantity ≤ 0 then
    (cart,
      { success := false
        message := "Quantity must be greater than 0. Use remove_from_cart to remove items."
        cart_total := get_cart_total cart
        item_count := cart.length })
  else
    match edit_item_go product_id quantity cart with
    | some (cart', name) =>
      (cart',
        { success := true
          message := "Updated " ++ name ++ " quantity to " ++ toString quantity
          cart_total := get_cart_total cart'
          item_count := cart'.length })
    | none =>
      (cart,
        { success := false
          message := "Product with ID " ++ toString product_id ++ " not found in cart."
          cart_total := get_cart_total cart
          item_count := cart.length })

/-- Helper for `remove_from_cart`: the indexed loop that pops the first item
matching the product id, returning the remaining cart and the removed item's
name, or `none` when no item matches. -/
def remove_item_go (product_id : ℤ) :
    List CartItem → Option (List CartItem × String)
  | [] => none
  | item :: rest =>
    if item.product_id = product_id then
      some (rest, item.product_name)
    else
      (remove_item_go product_id rest).map (fun p => (item :: p.1, p.2))

/-- `CartManager.remove_from_cart`: removes the first matching item, or fails
when the product is absent. -/
def remove_from_cart (cart : List CartItem) (product_id : ℤ) :
    List CartItem × CartOpResult :=
  match remove_item_go product_id cart with
  | some (cart', name) =>
    (cart',
      { success := true
        message := "Removed " ++ name ++ " from cart"
        cart_total := get_cart_total cart'
        item_count := cart'.length })
  | none =>
    (cart,
      { success := false
        message := "Product with ID " ++ toString product_id ++ " not found in cart."
        cart_total := get_cart_total cart
        item_count := cart.length })

/-- `CartManager.clear_cart`: resets the session's cart to the empty list. -/
def clear_cart (_cart : List CartItem) : List CartItem := []

/-- One cart mutation, as dispatched by the order tools: `add_to_cart`,
`edit_item_in_cart` or `remove_from_cart` for a single session. -/
inductive CartOp where
  | add (product_id : ℤ) (product_name : String) (quantity : ℤ)
      (unit_price : ℚ) (primary_image : Option String)
  | edit (product_id : ℤ) (quantity : ℤ)
  | remove (product_id : ℤ)
deriving DecidableEq, Repr

/-- Apply one cart mutation to a session's cart, keeping the updated cart. -/
def apply_cart_op (cart : List CartItem) : CartOp → List CartItem
  | .add pid name qty price img => (add_to_cart cart pid name qty price img).1
  | .edit pid qty => (edit_item_in_cart cart pid qty).1
  | .remove pid => (remove_from_cart cart pid).1

/-- Apply a sequence of cart mutations in order. -/
def apply_cart_ops (cart : List CartItem) (ops : List CartOp) : List CartItem :=
  ops.foldl apply_cart_op cart

/-! ## Similarity-threshold filter (`src/utils/similarity.py`) -/

/-- The accumulation loop of `filter_by_similarity_threshold`: for each
`(doc, distance)` pair compute `similarity = 1 - distance`, append the pair
when the similarity reaches the threshold, and break out of the loop as soon
as the accumulator holds at least `k` results.  Generic in the document type,
as the Python function is. -/
def filter_similarity_go {α : Type} (min_similarity : ℚ) (k : ℕ) :
    List (α × ℚ) → List (α × ℚ) → List (α × ℚ)
  | acc, [] => acc
  | acc, (doc, distance) :: rest =>
    let similarity := 1 - distance
    let acc' := if min_similarity ≤ similarity then acc ++ [(doc, similarity)] else acc
    if k ≤ acc'.length then acc' else filter_similarity_go min_similarity k acc' rest

/-- `filter_by_similarity_threshold` from `src/utils/similarity.py`. -/
def filter_by_similarity_threshold {α : Type} (results_with_scores : List (α × ℚ))
    (min_similarity : ℚ) (k : ℕ) : List (α × ℚ) :=
  filter_similarity_go min_similarity k [] results_with_scores

/-! ## Purchase transaction engine (`src/querying/tools/order.py`, `execute_purchase`) -/

/-- Voucher row (`data/database/order_models.py`): code, amount, used flag,
consuming session and use timestamp (timestamps embedded as naturals). -/
structure Voucher where
  code : String
  amount : ℚ
  is_used : Bool
  used_by_session : Option String
  used_at : Option ℕ
deriving DecidableEq, Repr

/-- OrderItem row: a frozen snapshot of a cart line at purchase time. -/
structure OrderItem where
  order_id : ℕ
  product_id : ℤ
  product_name : String
  quantity : ℤ
  unit_price : ℚ
  subtotal : ℚ
deriving DecidableEq, Repr

/-- Order row with its owned `items` relationship. -/
structure Order where
  id : ℕ
  session_id : String
  voucher_code : Option String
  total_amount : ℚ
  status : String
  items : List OrderItem
deriving DecidableEq, Repr

/-- The state `execute_purchase` reads and writes: the in-process cart map
(session id to cart), the ShippingInfo table (embedded as existence per
session; the address fields only feed the success message), the Voucher and
Order tables, and the autoincrement counter that `db.flush()` draws order ids
from. -/
structure PurchaseState where
  carts : String → List CartItem
  shipping : String → Bool
  vouchers : List Voucher
  orders : List Order
  next_order_id : ℕ

/-- The distinct outcomes of `execute_purchase`, each constructor carrying
exactly the data interpolated into the corresponding returned string. -/
inductive PurchaseResult where
  | emptyCart
  | noShipping
  | invalidVoucher (code : String)
  | alreadyPlaced (order_id : ℕ)
  | voucherUsed (code : String)
  | insufficientBalance (cart_total voucher_amount : ℚ)
  | success (order_id : ℕ) (cart_total voucher_amount : ℚ)
  | rolledBack
deriving DecidableEq, Repr

/-- Whether the result is the committed-purchase success outcome. -/
def PurchaseResult.isSuccess : PurchaseResult → Bool
  | .success _ _ _ => true
  | _ => false

/-- Mark the first voucher with the given code as used, recording the
consuming session and timestamp (the ORM mutates the row found by
`db.query(Voucher).filter(Voucher.code == voucher_code).first()`). -/
def mark_voucher_used (session_id : String) (voucher_code : String) (now : ℕ) :
    List Voucher → List Voucher
  | [] => []
  | v :: rest =>
    if v.code = voucher_code then
      { v with is_used := true, used_by_session := some session_id, used_at := some now } :: rest
    else
      v :: mark_voucher_used session_id voucher_code now rest

/-- The OrderItem snapshots taken from the current cart contents at purchase
time (not live catalog state). -/
def order_snapshot (oid : ℕ) (cart : List CartItem) : List OrderItem :=
  cart.map (fun ci =>
    { order_id := oid
      product_id := ci.product_id
      product_name := ci.product_name
      quantity := ci.quantity
      unit_price := ci.unit_price
      subtotal := ci.subtotal })

/-- The state after the atomic commit of a purchase attempt: the new Order
(with its item snapshots) appended, the voucher marked used in the same
commit, and — only after the commit — the session's cart cleared. -/
def purchase_commit (st : PurchaseState) (session_id : String)
    (voucher_code : String) (now : ℕ) : PurchaseState :=
  { carts := fun s => if s = session_id then [] else st.carts s
    shipping := st.shipping
    vouchers := mark_voucher_used session_id voucher_code now st.vouchers
    orders := st.orders ++
      [{ id := st.next_order_id
         session_id := session_id
         voucher_code := some voucher_code
         total_amount := get_cart_total (st.carts session_id)
         status := "completed"
         items := order_snapshot st.next_order_id (st.carts session_id) }]
    next_order_id := st.next_order_id + 1 }

/-- `execute_purchase` from `src/querying/tools/order.py`.  `commit_ok` embeds
whether the single `db.commit()` at the end of the attempt succeeds; when it
fails the `except` branch runs `db.rollback()` and returns an error string, so
the database and the cart are left unchanged.  `now` embeds `datetime.now()`.
Branches in source order: empty cart, missing shipping info, unknown voucher,
idempotency check on `Order.voucher_code`, used voucher, insufficient balance,
then the atomic write (order + item snapshots + voucher update) followed,
only after the commit, by `cart_manager.clear_cart`. -/
def execute_purchase (st : PurchaseState) (session_id : String)
    (voucher_code : String) (commit_ok : Bool) (now : ℕ) :
    PurchaseState × PurchaseResult :=
  if st.carts session_id = [] then (st, .emptyCart)
  else if st.shipping session_id = false then (st, .noShipping)
  else
    match st.vouchers.find? (fun v => v.code == voucher_code) with
    | none => (st, .invalidVoucher voucher_code)
    | some voucher =>
      match st.orders.find? (fun o => o.voucher_code == some voucher_code) with
      | some existing_order => (st, .alreadyPlaced existing_order.id)
      | none =>
        if voucher.is_used then (st, .voucherUsed voucher_code)
        else if voucher.amount < get_cart_total (st.carts session_id) then
          (st, .insufficientBalance (get_cart_total (st.carts session_id)) voucher.amount)
        else if commit_ok then
          (purchase_commit st session_id voucher_code now,
           .success st.next_order_id (get_cart_total (st.carts session_id)) voucher.amount)
        else (st, .rolledBack)

/-- Python `f"{x:.2f}"` for the nonnegative cent-exact amounts the purchase
messages interpolate: the amount in cents, printed with two decimals. -/
def format_usd (q : ℚ) : String :=
  let cents : ℕ := (round (q * 100)).toNat
  toString (cents / 100) ++ "." ++
    (if cents % 100 < 10 then "0" ++ toString (cents % 100) else toString (cents % 100))

/-- The exact insufficient-balance error string of `execute_purchase`
(source lines 720-724), as a function of the two interpolated amounts. -/
def insufficient_balance_message (cart_total voucher_amount : ℚ) : String :=
  "Error: Insufficient voucher balance. Your cart total is $" ++ format_usd cart_total ++
    ", but your voucher is worth $" ++ format_usd voucher_amount ++
    ". Please remove some items or use a voucher with sufficient balance."

/-- Boolean test that `pat` is an initial segment of `s`. -/
def leads_with : List Char → List Char → Bool
  | [], _ => true
  | _ :: _, [] => false
  | c :: cs, d :: ds => c == d && leads_with cs ds

/-- Boolean test that `pat` occurs contiguously inside `s`. -/
def mentions_chars (pat : List Char) : List Char → Bool
  | [] => leads_with pat []
  | c :: rest => leads_with pat (c :: rest) || mentions_chars pat rest

/-- A string `s` mentions `pat` when `pat` occurs contiguously inside it. -/
def str_mentions (s pat : String) : Bool :=
  mentions_chars pat.data s.data

/-! ## Product search price post-filter (`src/querying/tools/retrieval.py`) -/

/-- Outcome of `doc.metadata.get("price")` followed by `float(price)` for a
retrieved document: the key may be absent, hold a value convertible to a
number, or hold one whose conversion raises `ValueError`/`TypeError`. -/
inductive PriceMeta where
  | absent
  | num (value : ℚ)
  | nonconv
deriving DecidableEq, Repr

/-- A retrieved document, reduced to the metadata the post-filter reads. -/
structure RDoc where
  doc_id : ℕ
  price : PriceMeta
deriving DecidableEq, Repr

/-- Whether the price post-filter loop of `execute_product_search` (lines
236-252) appends a result, as a function of its price metadata: a convertible
price is kept unless it violates a given bound (`continue` on `price_float <
min_price` or `price_float > max_price`); a price that fails conversion falls
through the `except: pass` to the append and is kept; an absent price is
skipped exactly when `min_price` is given. -/
def price_keep (min_price max_price : Option ℚ) : PriceMeta → Bool
  | .num p =>
    !(min_price.any fun m => decide (p < m)) && !(max_price.any fun M => decide (M < p))
  | .nonconv => true
  | .absent => !min_price.isSome

/-- The price post-filter of `execute_product_search` (lines 234-257 before
the `[:k]` truncation): the append-or-continue loop keeps exactly the pairs
whose price metadata satisfies `price_keep`, in order. -/
def price_post_filter (min_price max_price : Option ℚ)
    (l : List (RDoc × ℚ)) : List (RDoc × ℚ) :=
  l.filter (fun x => price_keep min_price max_price x.1.price)

/-- The retrieval-and-filter pipeline of `execute_product_search`, from the
ranked `(document, distance)` pairs the vector store returns for the query
(embedded here as the input list) to the final result list: fetch budget
`fetch_k = 3 * k` when a price post-filter is present (else `k`), similarity
filtering with that budget, then the price post-filter truncated to `k`. -/
def execute_product_search (results_with_scores : List (RDoc × ℚ)) (k : ℕ)
    (min_price max_price : Option ℚ) (min_similarity : ℚ) : List (RDoc × ℚ) :=
  let has_post_filters := min_price.isSome || max_price.isSome
  let fetch_k := if has_post_filters then k * 3 else k
  let filtered := filter_by_similarity_threshold results_with_scores min_similarity fetch_k
  if has_post_filters then
    (price_post_filter min_price max_price filtered).take k
  else
    filtered

/-! ## Orchestrator routing (`src/querying/agents/orchestrator.py`) -/

/-- Routing modes of the orchestrator (`direct` is used when the selection
call proposes no function calls or times out). -/
inductive RoutingMode where
  | single
  | sequential
  | parallel
  | direct
deriving DecidableEq, Repr

/-- The two sub-agent handlers. -/
inductive AgentName where
  | general_info
  | order
deriving DecidableEq, Repr

/-- A proposed routing function call from the selection model response.  The
JSON `arguments` are embedded by their parsed content: `query_arg` is the
`"query"` field of `json.loads(tc.function.arguments)` (or `none` when the
field is missing). -/
structure OToolCall where
  call_id : String
  name : String
  query_arg : Option String
deriving DecidableEq, Repr

/-- Map a routing function name to its handler
(`query_general_info` / `query_order_agent`); unknown names are skipped. -/
def to_agent (name : String) : Option AgentName :=
  if name == "query_general_info" then some .general_info
  else if name == "query_order_agent" then some .order
  else none

/-- Collapse step (orchestrator lines 199-208): when more than one
`query_order_agent` call is proposed in one turn, the first of them is
rewritten to carry the original, un-split query and moved to the front of
the list of remaining (non-order) calls. -/
def collapse_order_calls (query : String) (calls : List OToolCall) : List OToolCall :=
  let order_calls := calls.filter (fun tc => tc.name == "query_order_agent")
  match order_calls with
  | first_order :: _ :: _ =>
    { first_order with query_arg := some query } ::
      calls.filter (fun tc => !(tc.name == "query_order_agent"))
  | _ => calls

/-- Routing-mode classification (orchestrator lines 233-242) from the list of
handlers the proposed calls resolved to: more than one call spanning more
than one distinct handler is `parallel`, more than one call reducing to a
single distinct handler is `sequential`, anything else is `single`. -/
def classify_routing (agents_used : List AgentName) : RoutingMode :=
  if 1 < agents_used.length ∧ 1 < agents_used.dedup.length then .parallel
  else if 1 < agents_used.length then .sequential
  else .single

/-- The routing mode the orchestrator assigns to a proposed call list: the
collapse step, then the name-to-handler resolution, then classification. -/
def routing_of (query : String) (calls : List OToolCall) : RoutingMode :=
  classify_routing ((collapse_order_calls query calls).filterMap (fun tc => to_agent tc.name))

/-- A model-provider response as the orchestrator and the agents observe it:
either an `asyncio.TimeoutError` from `create_chat_completion_with_timeout`,
or a message with optional text content and proposed routing calls. -/
inductive SelectionResp where
  | timeout
  | msg (content : Option String) (tool_calls : List OToolCall)

/-- The fixed apology text returned on a model-call timeout. -/
def timeout_apology : String :=
  "I apologize, but the request took too long to process. Please try again."

/-- Outcome of `OrchestratorAgent.invoke` toward its caller: a normal return
value carrying the response text and routing mode, or a propagated
`asyncio.TimeoutError`. -/
inductive InvokeOutcome where
  | ok (response : String) (routing_mode : RoutingMode)
  | raisedTimeout
deriving DecidableEq, Repr

/-- `OrchestratorAgent.invoke`, embedded over scripted provider responses.
`selection` is the handler-selection completion (wrapped in
`try/except asyncio.TimeoutError`, lines 152-174); `synthesis` is the
synthesis completion (line 311, not wrapped — a timeout there propagates);
`sub_agent` gives each handler's response text for a sub-query; `memory` is
the session's conversation memory as stored (query, response) pairs, appended
to by `self.memory.add_query` (ring-buffer eviction at 10 turns and the
structured sources are irrelevant to the claims and elided).  Returns the
outcome and the updated memory. -/
def orchestrator_invoke (query : String) (selection synthesis : SelectionResp)
    (sub_agent : AgentName → String → String) (memory : List (String × String)) :
    InvokeOutcome × List (String × String) :=
  match selection with
  | .timeout =>
    (.ok timeout_apology .direct, memory ++ [(query, timeout_apology)])
  | .msg content tool_calls =>
    if tool_calls = [] then
      let text := content.getD ""
      (.ok text .direct, memory ++ [(query, text)])
    else
      let calls := collapse_order_calls query tool_calls
      let agent_calls := calls.filterMap (fun tc =>
        (to_agent tc.name).map (fun a => (a, tc.query_arg.getD query)))
      let agents_used := agent_calls.map Prod.fst
      let routing_mode := classify_routing agents_used
      let responses := agent_calls.map (fun c => sub_agent c.1 c.2)
      if routing_mode = .single ∧ agent_calls.length = 1 then
        let text := responses.headD ""
        (.ok text routing_mode, memory ++ [(query, text)])
      else
        match synthesis with
        | .timeout => (.raisedTimeout, memory)
        | .msg c2 _ =>
          let text := c2.getD ""
          (.ok text routing_mode, memory ++ [(query, text)])

/-! ## Order-agent tool loop (`src/querying/agents/order.py`) -/

/-- A tool call proposed inside the order-agent loop; `arguments` is the
normalized argument JSON, `json.dumps(json.loads(raw), sort_keys=True)`, the
form the duplicate-signature check compares. -/
structure AToolCall where
  call_id : String
  name : String
  arguments : String
deriving DecidableEq, Repr

/-- A model response inside the loop: a timeout, or a message with optional
content and proposed tool calls. -/
inductive AgentResp where
  | timeout
  | msg (content : Option String) (tool_calls : List AToolCall)

/-- The tool calls a response proposes (none for a timeout). -/
def resp_calls : AgentResp → List AToolCall
  | .timeout => []
  | .msg _ tool_calls => tool_calls

/-- Whether a step proposes two tool calls with the same
(name, normalized arguments) signature — the condition under which the
signature-set loop (order.py lines 319-329) raises `RuntimeError`. -/
def dup_sig : List AToolCall → Bool
  | [] => false
  | tc :: rest =>
    rest.any (fun tc2 => tc2.name == tc.name && tc2.arguments == tc.arguments) || dup_sig rest

/-- Outcome of `OrderAgent.invoke` toward the orchestrator. -/
inductive AgentOutcome where
  | done (text : String)
  | llm_timeout
  | fatal_duplicate
  | too_many_steps
deriving DecidableEq, Repr

/-- The `for step in range(6)` loop of `OrderAgent.invoke`, over a scripted
provider (`script s` is the completion the provider returns at step `s`).
Returns the outcome together with the tool calls executed, in execution
order (the message-list bookkeeping and the tool result strings do not feed
back into the scripted provider and are elided).  Each step: a timeout
returns the fixed apology; no tool calls terminates with the message text;
a duplicate signature raises before any call of the step is executed;
otherwise all calls of the step are executed in order and the loop
continues; an exhausted step budget returns the too-many-steps apology. -/
def order_agent_go (script : ℕ → AgentResp) :
    ℕ → ℕ → List AToolCall → AgentOutcome × List AToolCall
  | _, 0, executed => (.too_many_steps, executed)
  | step, remaining + 1, executed =>
    match script step with
    | .timeout => (.llm_timeout, executed)
    | .msg content tool_calls =>
      if tool_calls = [] then (.done (content.getD ""), executed)
      else if dup_sig tool_calls then (.fatal_duplicate, executed)
      else order_agent_go script (step + 1) remaining (executed ++ tool_calls)

/-- The configured maximum step count of the order-agent loop. -/
def order_agent_max_steps : ℕ := 6

/-- `OrderAgent.invoke`: run the loop from step 0 with the full budget. -/
def order_agent_invoke (script : ℕ → AgentResp) : AgentOutcome × List AToolCall :=
  order_agent_go script 0 order_agent_max_steps []

/-- The tool calls of `n` consecutive scripted steps starting at `step`, in
execution order. -/
def steps_calls (script : ℕ → AgentResp) : ℕ → ℕ → List AToolCall
  | _, 0 => []
  | step, n + 1 => resp_calls (script step) ++ steps_calls script (step + 1) n

/-- A scripted step on which the loop keeps iterating: a message response
with at least one proposed tool call and no duplicate signature. -/
def continuing_step (r : AgentResp) : Prop :=
  ∃ content tool_calls, r = AgentResp.msg content tool_calls ∧
    tool_calls ≠ [] ∧ dup_sig tool_calls = false

/-! ## Theorems: similarity-threshold filter (claim C5) -/

/-- Unfolding of the accumulation loop at a cons cell. -/
lemma filter_similarity_go_cons {α : Type} (T : ℚ) (k : ℕ) (acc : List (α × ℚ))
    (d : α) (dist : ℚ) (tl : List (α × ℚ)) :
    filter_similarity_go T k acc ((d, dist) :: tl) =
      if k ≤ (if T ≤ 1 - dist then acc ++ [(d, 1 - dist)] else acc).length
      then (if T ≤ 1 - dist then acc ++ [(d, 1 - dist)] else acc)
      else filter_similarity_go T k
        (if T ≤ 1 - dist then acc ++ [(d, 1 - dist)] else acc) tl := rfl

/-- Characterization of the accumulation loop: starting below the cap, the
loop output extends the accumulator with the thresholded pairs of some prefix
of the remaining input, stays within the cap, and consumes the whole input
whenever the cap is not reached. -/
lemma filter_similarity_go_spec {α : Type} (T : ℚ) (k : ℕ) :
    ∀ (l acc : List (α × ℚ)), acc.length < k →
      ∃ p s, l = p ++ s ∧
        filter_similarity_go T k acc l =
          acc ++ p.filterMap (fun x => if T ≤ 1 - x.2 then some (x.1, 1 - x.2) else none) ∧
        (filter_similarity_go T k acc l).length ≤ k ∧
        ((filter_similarity_go T k acc l).length < k → s = []) := by
  intro l
  induction l with
  | nil =>
    intro acc hacc
    exact ⟨[], [], rfl, by simp [filter_similarity_go],
      by simpa [filter_similarity_go] using hacc.le, fun _ => rfl⟩
  | cons hd tl ih =>
    obtain ⟨d, dist⟩ := hd
    intro acc hacc
    rw [filter_similarity_go_cons]
    by_cases hsim : T ≤ 1 - dist
    · rw [if_pos hsim]
      by_cases hk : k ≤ (acc ++ [(d, 1 - dist)]).length
      · rw [if_pos hk]
        refine ⟨[(d, dist)], tl, rfl, by simp [hsim], ?_, ?_⟩
        · simp only [List.length_append, List.length_singleton]
          simp only [List.length_append, List.length_singleton] at hk
          omega
        · intro hlt
          simp only [List.length_append, List.length_singleton] at hk hlt
          omega
      · rw [if_neg hk]
        obtain ⟨p, s, hps, heq, hle, hlast⟩ := ih (acc ++ [(d, 1 - dist)]) (lt_of_not_le hk)
        exact ⟨(d, dist) :: p, s, by rw [hps]; rfl, by rw [heq]; simp [hsim], hle, hlast⟩
    · rw [if_neg hsim, if_neg (not_le.mpr hacc)]
      obtain ⟨p, s, hps, heq, hle, hlast⟩ := ih acc hacc
      exact ⟨(d, dist) :: p, s, by rw [hps]; rfl, by rw [heq]; simp [hsim], hle, hlast⟩

/-- C5, amended: for every ranked list, threshold `T` and cap `k ≥ 1`, the
filter output is the pairs of some input prefix whose similarity
`1 - distance` reaches `T`, paired with that similarity, in original rank
order; every kept similarity is at least `T`; the output holds at most `k`
pairs; and the prefix is the whole input whenever fewer than `k` pairs are
kept.  (The function is a pure Lean function, hence deterministic and
side-effect free.)  The `k ≥ 1` hypothesis is forced by the counterexample:
at `k = 0` the loop appends a qualifying first pair before testing the cap. -/
theorem C5_threshold_filter_amended {α : Type} (results : List (α × ℚ)) (T : ℚ)
    (k : ℕ) (hk : 1 ≤ k) :
    ∃ p s, results = p ++ s ∧
      filter_by_similarity_threshold results T k =
        p.filterMap (fun x => if T ≤ 1 - x.2 then some (x.1, 1 - x.2) else none) ∧
      (∀ x ∈ filter_by_similarity_threshold results T k, T ≤ x.2) ∧
      (filter_by_similarity_threshold results T k).length ≤ k ∧
      ((filter_by_similarity_threshold results T k).length < k → s = []) := by
  obtain ⟨p, s, hps, heq, hle, hlast⟩ :=
    filter_similarity_go_spec T k results [] (by simpa using hk)
  refine ⟨p, s, hps, by simpa [filter_by_similarity_threshold] using heq, ?_, ?_, ?_⟩
  · intro x hx
    rw [show filter_by_similarity_threshold results T k =
          filter_similarity_go T k [] results from rfl, heq] at hx
    simp only [List.nil_append, List.mem_filterMap] at hx
    obtain ⟨a, _, ha⟩ := hx
    by_cases h : T ≤ 1 - a.2
    · rw [if_pos h] at ha
      cases ha
      exact h
    · rw [if_neg h] at ha
      cases ha
  · simpa [filter_by_similarity_threshold] using hle
  · simpa [filter_by_similarity_threshold] using hlast

/-- C5, counterexample to the claim as stated: at cap `k = 0` the filter
returns one pair, so the output is not capped at `k`. -/
theorem C5_counterexample :
    (filter_by_similarity_threshold [((0 : ℕ), (0 : ℚ))] 0 0).length = 1 ∧
    ¬ (filter_by_similarity_threshold [((0 : ℕ), (0 : ℚ))] 0 0).length ≤ 0 := by
  simp [filter_by_similarity_threshold, filter_similarity_go]

/-- C5, witness: the amended theorem applied at a concrete ranked list. -/
theorem C5_witness :
    ∃ p s, [((7 : ℕ), (1/4 : ℚ)), (8, 9/10)] = p ++ s ∧
      filter_by_similarity_threshold [((7 : ℕ), (1/4 : ℚ)), (8, 9/10)] (1/2) 1 =
        p.filterMap (fun x => if 1/2 ≤ 1 - x.2 then some (x.1, 1 - x.2) else none) ∧
      (∀ x ∈ filter_by_similarity_threshold [((7 : ℕ), (1/4 : ℚ)), (8, 9/10)] (1/2) 1,
        (1/2 : ℚ) ≤ x.2) ∧
      (filter_by_similarity_threshold [((7 : ℕ), (1/4 : ℚ)), (8, 9/10)] (1/2) 1).length ≤ 1 ∧
      ((filter_by_similarity_threshold [((7 : ℕ), (1/4 : ℚ)), (8, 9/10)] (1/2) 1).length < 1 →
        s = []) :=
  C5_threshold_filter_amended [((7 : ℕ), (1/4 : ℚ)), (8, 9/10)] (1/2) 1 (by decide)

/-! ## Theorems: price post-filter asymmetry (claim C10) -/

/-- A document with no price in its metadata never survives the price
post-filter when a minimum price is given. -/
lemma price_post_filter_absent_min (m : ℚ) (max_price : Option ℚ)
    (l : List (RDoc × ℚ)) (d : RDoc) (s : ℚ) (habs : d.price = .absent) :
    (d, s) ∉ price_post_filter (some m) max_price l := by
  intro hx
  have hkeep := (List.mem_filter.mp hx).2
  rw [habs] at hkeep
  simp [price_keep] at hkeep

/-- A document with no price is kept by the price post-filter when only a
maximum price is given. -/
lemma price_post_filter_absent_max (max_price : Option ℚ)
    (l : List (RDoc × ℚ)) (d : RDoc) (s : ℚ) (habs : d.price = .absent)
    (hx : (d, s) ∈ l) : (d, s) ∈ price_post_filter none max_price l := by
  refine List.mem_filter.mpr ⟨hx, ?_⟩
  rw [habs]
  simp [price_keep]

/-- A document whose price fails numeric conversion is kept by the price
post-filter whatever the bounds are. -/
lemma price_post_filter_nonconv (min_price max_price : Option ℚ)
    (l : List (RDoc × ℚ)) (d : RDoc) (s : ℚ) (hnc : d.price = .nonconv)
    (hx : (d, s) ∈ l) : (d, s) ∈ price_post_filter min_price max_price l := by
  refine List.mem_filter.mpr ⟨hx, ?_⟩
  rw [hnc]
  simp [price_keep]

/-- C10, confirmed: in `execute_product_search`, a result whose metadata
carries no price is excluded from the output whenever `min_price` is given;
it is retained by the price post-filter when only `max_price` is given; and a
result whose price value fails numeric conversion bypasses both price bounds
and is retained by the price post-filter, whatever bounds are requested. -/
theorem C10_price_filter_asymmetry :
    (∀ (input : List (RDoc × ℚ)) (k : ℕ) (m : ℚ) (mx : Option ℚ) (T : ℚ)
        (d : RDoc) (s : ℚ), d.price = .absent →
        (d, s) ∉ execute_product_search input k (some m) mx T) ∧
    (∀ (l : List (RDoc × ℚ)) (M : ℚ) (d : RDoc) (s : ℚ), d.price = .absent →
        (d, s) ∈ l → (d, s) ∈ price_post_filter none (some M) l) ∧
    (∀ (l : List (RDoc × ℚ)) (mn mx : Option ℚ) (d : RDoc) (s : ℚ),
        d.price = .nonconv →
        (d, s) ∈ l → (d, s) ∈ price_post_filter mn mx l) := by
  refine ⟨?_, fun l M d s habs hx => price_post_filter_absent_max (some M) l d s habs hx,
    fun l mn mx d s hnc hx => price_post_filter_nonconv mn mx l d s hnc hx⟩
  intro input k m mx T d s habs hx
  have hmem : (d, s) ∈ price_post_filter (some m) mx
      (filter_by_similarity_threshold input T (k * 3)) := by
    simpa [execute_product_search] using List.take_subset k _ hx
  exact price_post_filter_absent_min m mx _ d s habs hmem

/-- C10, witness: the three parts of the theorem at concrete documents. -/
theorem C10_witness :
    ((⟨0, .absent⟩ : RDoc), (1 : ℚ)) ∉
      execute_product_search [(⟨0, .absent⟩, 0)] 1 (some 1) none 0 ∧
    ((⟨0, .absent⟩ : RDoc), (1 : ℚ)) ∈
      price_post_filter none (some 1) [(⟨0, .absent⟩, 1)] ∧
    ((⟨1, .nonconv⟩ : RDoc), (1 : ℚ)) ∈
      price_post_filter (some 5) (some 6) [(⟨1, .nonconv⟩, 1)] :=
  ⟨C10_price_filter_asymmetry.1 [(⟨0, .absent⟩, 0)] 1 1 none 0 ⟨0, .absent⟩ 1 rfl,
   C10_price_filter_asymmetry.2.1 [(⟨0, .absent⟩, 1)] 1 ⟨0, .absent⟩ 1 rfl (by simp),
   C10_price_filter_asymmetry.2.2 [(⟨1, .nonconv⟩, 1)] (some 5) (some 6) ⟨1, .nonconv⟩ 1 rfl
     (by simp)⟩

/-! ## Theorems: cart uniqueness (claim C7) -/

/-- `edit_item_in_cart` only rewrites a quantity: the product ids of the cart
are unchanged. -/
lemma edit_item_go_map_pid (pid q : ℤ) :
    ∀ (cart cart' : List CartItem) (name : String),
      edit_item_go pid q cart = some (cart', name) →
      cart'.map CartItem.product_id = cart.map CartItem.product_id := by
  intro cart
  induction cart with
  | nil => intro cart' name h; cases h
  | cons item rest ih =>
    intro cart' name h
    by_cases hpid : item.product_id = pid
    · rw [edit_item_go, if_pos hpid] at h
      cases h
      rfl
    · rw [edit_item_go, if_neg hpid] at h
      rw [Option.map_eq_some'] at h
      obtain ⟨p, hp, heq⟩ := h
      cases heq
      simp only [List.map_cons]
      rw [ih p.1 p.2 hp]

/-- `remove_from_cart` pops one item: the product ids of the new cart form a
sublist of the old ones. -/
lemma remove_item_go_sublist (pid : ℤ) :
    ∀ (cart cart' : List CartItem) (name : String),
      remove_item_go pid cart = some (cart', name) →
      List.Sublist (cart'.map CartItem.product_id) (cart.map CartItem.product_id) := by
  intro cart
  induction cart with
  | nil => intro cart' name h; cases h
  | cons item rest ih =>
    intro cart' name h
    by_cases hpid : item.product_id = pid
    · rw [remove_item_go, if_pos hpid] at h
      cases h
      exact List.sublist_cons_self _ _
    · rw [remove_item_go, if_neg hpid] at h
      rw [Option.map_eq_some'] at h
      obtain ⟨p, hp, heq⟩ := h
      cases heq
      exact List.Sublist.cons₂ _ (ih p.1 p.2 hp)

/-- Any single cart mutation preserves uniqueness of product ids. -/
lemma apply_cart_op_nodup (cart : List CartItem) (op : CartOp)
    (h : (cart.map CartItem.product_id).Nodup) :
    ((apply_cart_op cart op).map CartItem.product_id).Nodup := by
  cases op with
  | add pid name qty price img =>
    by_cases hmem : (cart.any fun item => item.product_id == pid) = true
    · simpa [apply_cart_op, add_to_cart, hmem] using h
    · have hnot : ∀ x ∈ cart, ¬ x.product_id = pid := by simpa using hmem
      have hpid_not : pid ∉ cart.map CartItem.product_id := by
        simp only [List.mem_map, not_exists, not_and]
        intro x hx hx2
        exact hnot x hx hx2
      simp only [apply_cart_op, add_to_cart, if_neg hmem]
      simp only [List.map_append, List.map_cons, List.map_nil]
      rw [List.nodup_append]
      refine ⟨h, List.nodup_singleton _, ?_⟩
      intro a ha hb
      simp only [List.mem_singleton] at hb
      subst hb
      exact hpid_not ha
  | edit pid qty =>
    simp only [apply_cart_op, edit_item_in_cart]
    by_cases hq : qty ≤ 0
    · simpa [hq] using h
    · rw [if_neg hq]
      cases hgo : edit_item_go pid qty cart with
      | none => exact h
      | some p =>
        obtain ⟨cart', name⟩ := p
        show (cart'.map CartItem.product_id).Nodup
        rw [edit_item_go_map_pid pid qty cart cart' name hgo]
        exact h
  | remove pid =>
    simp only [apply_cart_op, remove_from_cart]
    cases hgo : remove_item_go pid cart with
    | none => exact h
    | some p =>
      obtain ⟨cart', name⟩ := p
      show (cart'.map CartItem.product_id).Nodup
      exact List.Nodup.sublist (remove_item_go_sublist pid cart cart' name hgo) h

/-- Uniqueness is preserved along any sequence of cart mutations. -/
lemma apply_cart_ops_nodup :
    ∀ (ops : List CartOp) (cart : List CartItem),
      (cart.map CartItem.product_id).Nodup →
      ((apply_cart_ops cart ops).map CartItem.product_id).Nodup := by
  intro ops
  induction ops with
  | nil => intro cart h; simpa [apply_cart_ops] using h
  | cons op rest ih =>
    intro cart h
    simpa [apply_cart_ops] using ih (apply_cart_op cart op) (apply_cart_op_nodup cart op h)

/-- C7, confirmed: starting from an empty cart, any sequence of add, edit and
remove operations leaves at most one CartItem per product id; and
`add_to_cart` for a product id already present returns a failure whose message
directs the caller to `edit_item_in_cart`, leaving the cart contents and item
count unchanged — quantities are never merged. -/
theorem C7_cart_uniqueness :
    (∀ ops : List CartOp,
      ((apply_cart_ops [] ops).map CartItem.product_id).Nodup) ∧
    (∀ (cart : List CartItem) (pid : ℤ) (name : String) (qty : ℤ) (price : ℚ)
        (img : Option String), (∃ item ∈ cart, item.product_id = pid) →
      add_to_cart cart pid name qty price img =
        (cart,
          { success := false
            message := name ++
              " is already in your cart. Use edit_item_in_cart to update the quantity."
            cart_total := get_cart_total cart
            item_count := cart.length })) := by
  constructor
  · intro ops
    exact apply_cart_ops_nodup ops [] (by simp)
  · intro cart pid name qty price img hmem
    have hany : (cart.any fun item => item.product_id == pid) = true := by
      obtain ⟨item, hitem, hpid⟩ := hmem
      simp only [List.any_eq_true, beq_iff_eq]
      exact ⟨item, hitem, hpid⟩
    simp [add_to_cart, hany]

/-- C7, witness: the invariant evaluated on a concrete sequence, and the
duplicate-add rejection at a concrete cart. -/
theorem C7_witness :
    ((apply_cart_ops []
        [.add 1 "A" 1 2 none, .add 2 "B" 1 5 none, .edit 1 3, .remove 2]).map
      CartItem.product_id).Nodup ∧
    add_to_cart [⟨1, "A", 1, 2, none⟩] 1 "A" 3 2 none =
      ([⟨1, "A", 1, 2, none⟩],
        { success := false
          message :=
            "A is already in your cart. Use edit_item_in_cart to update the quantity."
          cart_total := get_cart_total [⟨1, "A", 1, 2, none⟩]
          item_count := 1 }) :=
  ⟨C7_cart_uniqueness.1 [.add 1 "A" 1 2 none, .add 2 "B" 1 5 none, .edit 1 3, .remove 2],
   C7_cart_uniqueness.2 [⟨1, "A", 1, 2, none⟩] 1 "A" 3 2 none
     ⟨⟨1, "A", 1, 2, none⟩, by simp, rfl⟩⟩

/-! ## Theorems: purchase atomicity (claim C2) -/

/-- C2, confirmed: on every purchase attempt, if the outcome is not the
committed success then the whole state — the session's cart and all database
tables — is exactly the input state (failure branches return before any
write; a failed commit rolls back); and on success the session's cart is
cleared (only after the commit). -/
theorem C2_purchase_atomicity (st : PurchaseState) (sid vc : String)
    (ok : Bool) (now : ℕ) :
    ((execute_purchase st sid vc ok now).2.isSuccess = false →
      (execute_purchase st sid vc ok now).1 = st) ∧
    ((execute_purchase st sid vc ok now).2.isSuccess = true →
      (execute_purchase st sid vc ok now).1.carts sid = []) := by
  unfold execute_purchase
  by_cases h1 : st.carts sid = []
  · simp [h1, PurchaseResult.isSuccess]
  · rw [if_neg h1]
    by_cases h2 : st.shipping sid = false
    · simp [h2, PurchaseResult.isSuccess]
    · rw [if_neg h2]
      cases hv : st.vouchers.find? (fun v => v.code == vc) with
      | none => simp [PurchaseResult.isSuccess]
      | some voucher =>
        dsimp only
        cases ho : st.orders.find? (fun o => o.voucher_code == some vc) with
        | some existing_order => simp [PurchaseResult.isSuccess]
        | none =>
          dsimp only
          by_cases hu : voucher.is_used = true
          · simp [hu, PurchaseResult.isSuccess]
          · rw [if_neg hu]
            by_cases hb : voucher.amount < get_cart_total (st.carts sid)
            · simp [hb, PurchaseResult.isSuccess]
            · rw [if_neg hb]
              cases ok
              · simp [PurchaseResult.isSuccess]
              · simp [PurchaseResult.isSuccess, purchase_commit]

/-- C2, witness: a failing attempt (empty cart) leaves the state unchanged. -/
theorem C2_witness :
    (execute_purchase ⟨fun _ => [], fun _ => true, [], [], 1⟩ "s1" "V" true 0).1 =
      ⟨fun _ => [], fun _ => true, [], [], 1⟩ :=
  (C2_purchase_atomicity ⟨fun _ => [], fun _ => true, [], [], 1⟩ "s1" "V" true 0).1
    (by simp [execute_purchase, PurchaseResult.isSuccess])

/-! ## Theorems: idempotent purchase (claim C1) -/

/-- Inversion of a committed purchase: a success outcome can only arise from
the final branch, so no Order referencing the voucher code pre-existed, and
the new state is the committed one. -/
lemma execute_purchase_success_inv (st : PurchaseState) (sid vc : String)
    (now : ℕ) (st2 : PurchaseState) (oid : ℕ) (t a : ℚ)
    (h : execute_purchase st sid vc true now = (st2, .success oid t a)) :
    st.orders.find? (fun o => o.voucher_code == some vc) = none ∧
    st2 = purchase_commit st sid vc now := by
  unfold execute_purchase at h
  by_cases h1 : st.carts sid = []
  · rw [if_pos h1] at h
    simp at h
  · rw [if_neg h1] at h
    by_cases h2 : st.shipping sid = false
    · rw [if_pos h2] at h
      simp at h
    · rw [if_neg h2] at h
      cases hv : st.vouchers.find? (fun v => v.code == vc) with
      | none => rw [hv] at h; simp at h
      | some voucher =>
        rw [hv] at h
        dsimp only at h
        cases ho : st.orders.find? (fun o => o.voucher_code == some vc) with
        | some existing_order => rw [ho] at h; simp at h
        | none =>
          rw [ho] at h
          dsimp only at h
          by_cases hu : voucher.is_used = true
          · rw [if_pos hu] at h
            simp at h
          · rw [if_neg hu] at h
            by_cases hb : voucher.amount < get_cart_total (st.carts sid)
            · rw [if_pos hb] at h
              simp at h
            · rw [if_neg hb, if_pos rfl] at h
              rw [Prod.mk.injEq] at h
              exact ⟨rfl, h.1.symm⟩

/-- C1, amended: (a) when an Order referencing the voucher code already
exists AND the attempt survives the earlier gates (non-empty cart, shipping
info on file, known voucher code), `execute_purchase` returns the existing
order's id as a no-op and changes nothing; (b) after a successful commit, the
state holds exactly one Order referencing the code, and a second sequential
call for the same session and code creates no Order — it returns the
empty-cart error (not the existing order id), because the committed purchase
cleared the cart and the empty-cart gate runs before the idempotency check. -/
theorem C1_idempotent_purchase_amended :
    (∀ (st : PurchaseState) (sid vc : String) (ok : Bool) (now : ℕ) (o : Order),
      st.carts sid ≠ [] → st.shipping sid = true →
      (st.vouchers.find? (fun v => v.code == vc)).isSome = true →
      st.orders.find? (fun o2 => o2.voucher_code == some vc) = some o →
      execute_purchase st sid vc ok now = (st, .alreadyPlaced o.id)) ∧
    (∀ (st : PurchaseState) (sid vc : String) (now now2 : ℕ) (ok : Bool)
        (st2 : PurchaseState) (oid : ℕ) (t a : ℚ),
      execute_purchase st sid vc true now = (st2, .success oid t a) →
      st2.orders.countP (fun o => o.voucher_code == some vc) = 1 ∧
      execute_purchase st2 sid vc ok now2 = (st2, .emptyCart)) := by
  constructor
  · intro st sid vc ok now o hc hs hvs ho
    obtain ⟨v, hv⟩ := Option.isSome_iff_exists.mp hvs
    unfold execute_purchase
    rw [if_neg hc, if_neg (by simp [hs]), hv]
    dsimp only
    rw [ho]
  · intro st sid vc now now2 ok st2 oid t a h
    obtain ⟨hnone, hst2⟩ := execute_purchase_success_inv st sid vc now st2 oid t a h
    have hcount : st2.orders.countP (fun o => o.voucher_code == some vc) = 1 := by
      subst hst2
      simp only [purchase_commit, List.countP_append]
      have hzero : st.orders.countP (fun o => o.voucher_code == some vc) = 0 := by
        rw [List.countP_eq_zero]
        intro o hmem
        exact List.find?_eq_none.mp hnone o hmem
      rw [hzero]
      simp [List.countP_cons]
    refine ⟨hcount, ?_⟩
    have hempty : st2.carts sid = [] := by
      subst hst2
      simp [purchase_commit]
    unfold execute_purchase
    rw [if_pos hempty]

/-- A fresh state: one cart item (total 2), shipping on file, one unused
voucher `"V"` worth 5, no orders. -/
def purchase_state_fresh : PurchaseState :=
  ⟨fun _ => [⟨1, "W", 1, 2, none⟩], fun _ => true,
    [⟨"V", 5, false, none, none⟩], [], 1⟩

/-- A state in which an Order referencing voucher `"V"` already exists and
the session has re-filled its cart. -/
def purchase_state_placed : PurchaseState :=
  ⟨fun _ => [⟨1, "W", 1, 2, none⟩], fun _ => true,
    [⟨"V", 5, true, some "s1", some 0⟩],
    [⟨1, "s1", some "V", 2, "completed", []⟩], 2⟩

/-- C1, counterexample to the claim as stated: after a successful first
commit the cart is cleared, so the second sequential `purchase` call — even
though an Order referencing the voucher now exists — hits the empty-cart gate
and returns the empty-cart error, not the existing order id (the idempotency
check at source lines 704-712 runs only after the cart, shipping and voucher
gates).  Exactly one Order referencing the voucher exists either way. -/
theorem C1_counterexample :
    (execute_purchase purchase_state_fresh "s1" "V" true 0).2 = .success 1 2 5 ∧
    (execute_purchase purchase_state_fresh "s1" "V" true 0).1.orders.countP
      (fun o => o.voucher_code == some "V") = 1 ∧
    (execute_purchase (execute_purchase purchase_state_fresh "s1" "V" true 0).1
      "s1" "V" true 1).2 = .emptyCart ∧
    (execute_purchase (execute_purchase purchase_state_fresh "s1" "V" true 0).1
      "s1" "V" true 1).2 ≠ .alreadyPlaced 1 := by
  refine ⟨?_, ?_, ?_, ?_⟩ <;>
    norm_num [execute_purchase, purchase_state_fresh, get_cart_total,
      CartItem.subtotal, List.find?, purchase_commit, List.countP_cons,
      mark_voucher_used]
  all_goals decide

/-- C1, witness: the amended theorem at concrete states — the no-op return of
the existing order id when the gates pass, and the exactly-one-Order
guarantee after a successful commit. -/
theorem C1_witness :
    execute_purchase purchase_state_placed "s1" "V" true 5 =
      (purchase_state_placed, .alreadyPlaced 1) ∧
    ((purchase_commit purchase_state_fresh "s1" "V" 0).orders.countP
        (fun o => o.voucher_code == some "V") = 1 ∧
      execute_purchase (purchase_commit purchase_state_fresh "s1" "V" 0)
          "s1" "V" true 1 =
        (purchase_commit purchase_state_fresh "s1" "V" 0, .emptyCart)) := by
  constructor
  · exact C1_idempotent_purchase_amended.1 purchase_state_placed "s1" "V" true 5
      ⟨1, "s1", some "V", 2, "completed", []⟩
      (by simp [purchase_state_placed]) rfl (by decide) (by decide)
  · exact C1_idempotent_purchase_amended.2 purchase_state_fresh "s1" "V" 0 1 true
      (purchase_commit purchase_state_fresh "s1" "V" 0) 1 2 5
      (by norm_num [execute_purchase, purchase_state_fresh, get_cart_total,
        CartItem.subtotal, List.find?])

/-! ## Theorems: insufficient voucher balance (claim C9) -/

/-- A pattern is an initial segment of itself followed by anything. -/
lemma leads_with_append (pat r : List Char) : leads_with pat (pat ++ r) = true := by
  induction pat with
  | nil => rfl
  | cons c cs ih => simp [leads_with, ih]

/-- A pattern occurs in any list that places it between a left and a right
context. -/
lemma mentions_chars_append (pat pre post : List Char) :
    mentions_chars pat (pre ++ (pat ++ post)) = true := by
  induction pre with
  | nil =>
    simp only [List.nil_append]
    cases hpp : pat ++ post with
    | nil =>
      obtain ⟨h1, _⟩ := List.append_eq_nil.mp hpp
      rw [h1]
      rfl
    | cons c rest =>
      have hl : leads_with pat (c :: rest) = true := hpp ▸ leads_with_append pat post
      simp [mentions_chars, hl]
  | cons c pre ih =>
    simp only [List.cons_append]
    simp [mentions_chars, ih]

/-- A pattern occurs in any list equal to a left context, the pattern, and a
right context. -/
lemma mentions_chars_middle (pat l pre post : List Char)
    (h : l = pre ++ (pat ++ post)) : mentions_chars pat l = true := by
  rw [h]
  exact mentions_chars_append pat pre post

/-- C9, amended: when an attempt passes the earlier gates (non-empty cart,
shipping on file, known voucher, no existing order, voucher unused) and the
voucher amount is strictly below the cart total, `execute_purchase` is a
terminal error: the state is unchanged (no Order created, voucher not marked
used) and the insufficient-balance message reports the cart total and the
voucher amount — from which the shortfall follows — rather than the delta
value itself. -/
theorem C9_insufficient_balance_amended (st : PurchaseState) (sid vc : String)
    (v : Voucher) (ok : Bool) (now : ℕ)
    (hc : st.carts sid ≠ []) (hs : st.shipping sid = true)
    (hv : st.vouchers.find? (fun v2 => v2.code == vc) = some v)
    (ho : st.orders.find? (fun o => o.voucher_code == some vc) = none)
    (hu : v.is_used = false)
    (hb : v.amount < get_cart_total (st.carts sid)) :
    execute_purchase st sid vc ok now =
      (st, .insufficientBalance (get_cart_total (st.carts sid)) v.amount) ∧
    str_mentions
      (insufficient_balance_message (get_cart_total (st.carts sid)) v.amount)
      (format_usd (get_cart_total (st.carts sid))) = true ∧
    str_mentions
      (insufficient_balance_message (get_cart_total (st.carts sid)) v.amount)
      (format_usd v.amount) = true := by
  refine ⟨?_, ?_, ?_⟩
  · unfold execute_purchase
    rw [if_neg hc, if_neg (by simp [hs]), hv]
    dsimp only
    rw [ho]
    dsimp only
    rw [if_neg (by simp [hu]), if_pos hb]
  · unfold str_mentions
    apply mentions_chars_middle _ _
      ("Error: Insufficient voucher balance. Your cart total is $".data)
      ((", but your voucher is worth $" ++ format_usd v.amount ++
        ". Please remove some items or use a voucher with sufficient balance.").data)
    simp [insufficient_balance_message, String.data_append, List.append_assoc]
  · unfold str_mentions
    apply mentions_chars_middle _ _
      (("Error: Insufficient voucher balance. Your cart total is $" ++
        format_usd (get_cart_total (st.carts sid)) ++
        ", but your voucher is worth $").data)
      (". Please remove some items or use a voucher with sufficient balance.".data)
    simp [insufficient_balance_message, String.data_append, List.append_assoc]

/-- A state for the insufficient-balance branch: cart total 3, voucher worth
only 1. -/
def purchase_state_poor : PurchaseState :=
  ⟨fun _ => [⟨1, "W", 3, 1, none⟩], fun _ => true,
    [⟨"V", 1, false, none, none⟩], [], 1⟩

/-- C9, counterexample to the claim as stated: at cart total 3 and voucher
amount 1 the shortfall delta is 2, and the string `"2.00"` does not occur in
the returned message — the message reports the two amounts, not the delta. -/
theorem C9_counterexample :
    execute_purchase purchase_state_poor "s1" "V" true 0 =
      (purchase_state_poor, .insufficientBalance 3 1) ∧
    str_mentions (insufficient_balance_message 3 1) (format_usd (3 - 1)) = false := by
  constructor
  · norm_num [execute_purchase, purchase_state_poor, get_cart_total,
      CartItem.subtotal, List.find?]
  · have h1 : format_usd (3 - 1 : ℚ) = "2.00" := by
      norm_num [format_usd, round_eq]
      decide
    have h2 : format_usd (3 : ℚ) = "3.00" := by
      norm_num [format_usd, round_eq]
      decide
    have h3 : format_usd (1 : ℚ) = "1.00" := by
      norm_num [format_usd, round_eq]
      decide
    rw [h1, insufficient_balance_message, h2, h3]
    decide

/-- C9, witness: the amended theorem at the concrete insufficient-balance
state. -/
theorem C9_witness :
    execute_purchase purchase_state_poor "s1" "V" false 7 =
      (purchase_state_poor,
        .insufficientBalance (get_cart_total (purchase_state_poor.carts "s1")) 1) ∧
    str_mentions
      (insufficient_balance_message (get_cart_total (purchase_state_poor.carts "s1")) 1)
      (format_usd (get_cart_total (purchase_state_poor.carts "s1"))) = true ∧
    str_mentions
      (insufficient_balance_message (get_cart_total (purchase_state_poor.carts "s1")) 1)
      (format_usd 1) = true :=
  C9_insufficient_balance_amended purchase_state_poor "s1" "V"
    ⟨"V", 1, false, none, none⟩ false 7
    (by simp [purchase_state_poor]) rfl (by decide) (by decide) rfl
    (by norm_num [purchase_state_poor, get_cart_total, CartItem.subtotal])

/-! ## Theorems: routing classification (claim C3) -/

/-- Inversion of the routing-name resolution: only the two handler function
names resolve. -/
lemma to_agent_inv (n : String) (a : AgentName) (h : to_agent n = some a) :
    (n = "query_general_info" ∧ a = .general_info) ∨
    (n = "query_order_agent" ∧ a = .order) := by
  unfold to_agent at h
  by_cases h1 : (n == "query_general_info") = true
  · rw [if_pos h1] at h
    exact Or.inl ⟨beq_iff_eq.mp h1, (Option.some_inj.mp h).symm⟩
  · rw [if_neg h1] at h
    by_cases h2 : (n == "query_order_agent") = true
    · rw [if_pos h2] at h
      exact Or.inr ⟨beq_iff_eq.mp h2, (Option.some_inj.mp h).symm⟩
    · rw [if_neg h2] at h
      cases h

/-- A list of at most one resolved handler classifies as `single`. -/
lemma classify_routing_short (l : List AgentName) (h : l.length ≤ 1) :
    classify_routing l = .single := by
  unfold classify_routing
  rw [if_neg (fun hc => absurd hc.1 (by omega)), if_neg (by omega)]

/-- Collapse is the identity on a single proposed call. -/
lemma collapse_order_calls_one (q : String) (c : OToolCall) :
    collapse_order_calls q [c] = [c] := by
  unfold collapse_order_calls
  by_cases h : (c.name == "query_order_agent") = true <;> simp [h]

/-- C3, amended: exactly one proposed call classifies as `single`; two calls
to two distinct handlers classify as `parallel`; two calls to the general-info
handler classify as `sequential`; but two calls to the order handler are
first collapsed into a single call carrying the original, un-split query —
only order-handler duplicates are collapsed — and therefore classify as
`single`, not `sequential`. -/
theorem C3_routing_classification_amended :
    (∀ (q : String) (c : OToolCall), routing_of q [c] = .single) ∧
    (∀ (q : String) (c1 c2 : OToolCall) (a1 a2 : AgentName),
      to_agent c1.name = some a1 → to_agent c2.name = some a2 → a1 ≠ a2 →
      routing_of q [c1, c2] = .parallel) ∧
    (∀ (q : String) (c1 c2 : OToolCall),
      c1.name = "query_general_info" → c2.name = "query_general_info" →
      routing_of q [c1, c2] = .sequential) ∧
    (∀ (q : String) (c1 c2 : OToolCall),
      c1.name = "query_order_agent" → c2.name = "query_order_agent" →
      routing_of q [c1, c2] = .single ∧
      collapse_order_calls q [c1, c2] = [{ c1 with query_arg := some q }]) := by
  refine ⟨?_, ?_, ?_, ?_⟩
  · intro q c
    unfold routing_of
    rw [collapse_order_calls_one]
    cases h : to_agent c.name with
    | none => simp [h, classify_routing]
    | some a => simp [h, classify_routing]
  · intro q c1 c2 a1 a2 h1 h2 h12
    obtain ⟨id1, n1, qa1⟩ := c1
    obtain ⟨id2, n2, qa2⟩ := c2
    rcases to_agent_inv _ _ h1 with ⟨hn1, ha1⟩ | ⟨hn1, ha1⟩ <;>
      rcases to_agent_inv _ _ h2 with ⟨hn2, ha2⟩ | ⟨hn2, ha2⟩ <;>
      dsimp only at hn1 hn2 <;> subst hn1 <;> subst hn2 <;> subst ha1 <;> subst ha2
    · exact absurd rfl h12
    · unfold routing_of collapse_order_calls
      simp [to_agent, classify_routing, List.dedup]
    · unfold routing_of collapse_order_calls
      simp [to_agent, classify_routing, List.dedup]
    · exact absurd rfl h12
  · intro q c1 c2 h1 h2
    obtain ⟨id1, n1, qa1⟩ := c1
    obtain ⟨id2, n2, qa2⟩ := c2
    dsimp only at h1 h2
    subst h1
    subst h2
    unfold routing_of collapse_order_calls
    simp [to_agent, classify_routing, List.dedup]
  · intro q c1 c2 h1 h2
    obtain ⟨id1, n1, qa1⟩ := c1
    obtain ⟨id2, n2, qa2⟩ := c2
    dsimp only at h1 h2
    subst h1
    subst h2
    constructor
    · unfold routing_of collapse_order_calls
      simp [to_agent, classify_routing]
    · unfold collapse_order_calls
      simp

/-- C3, counterexample to the claim as stated: two calls both resolving to
the order handler classify as `single` (after the collapse), not as
`sequential`. -/
theorem C3_counterexample :
    routing_of "orig" [⟨"1", "query_order_agent", some "a"⟩,
      ⟨"2", "query_order_agent", some "b"⟩] = .single ∧
    routing_of "orig" [⟨"1", "query_order_agent", some "a"⟩,
      ⟨"2", "query_order_agent", some "b"⟩] ≠ .sequential := by
  decide

/-- C3, witness: the four parts of the amended theorem at concrete calls. -/
theorem C3_witness :
    routing_of "q" [⟨"1", "query_general_info", some "a"⟩] = .single ∧
    routing_of "q" [⟨"1", "query_general_info", some "a"⟩,
      ⟨"2", "query_order_agent", some "b"⟩] = .parallel ∧
    routing_of "q" [⟨"1", "query_general_info", some "a"⟩,
      ⟨"2", "query_general_info", some "b"⟩] = .sequential ∧
    routing_of "q" [⟨"1", "query_order_agent", some "a"⟩,
      ⟨"2", "query_order_agent", some "b"⟩] = .single ∧
    collapse_order_calls "q" [⟨"1", "query_order_agent", some "a"⟩,
      ⟨"2", "query_order_agent", some "b"⟩] = [⟨"1", "query_order_agent", some "q"⟩] :=
  ⟨C3_routing_classification_amended.1 "q" ⟨"1", "query_general_info", some "a"⟩,
   C3_routing_classification_amended.2.1 "q" ⟨"1", "query_general_info", some "a"⟩
     ⟨"2", "query_order_agent", some "b"⟩ .general_info .order rfl rfl (by decide),
   C3_routing_classification_amended.2.2.1 "q" ⟨"1", "query_general_info", some "a"⟩
     ⟨"2", "query_general_info", some "b"⟩ rfl rfl,
   (C3_routing_classification_amended.2.2.2 "q" ⟨"1", "query_order_agent", some "a"⟩
     ⟨"2", "query_order_agent", some "b"⟩ rfl rfl).1,
   (C3_routing_classification_amended.2.2.2 "q" ⟨"1", "query_order_agent", some "a"⟩
     ⟨"2", "query_order_agent", some "b"⟩ rfl rfl).2⟩

/-! ## Theorems: orchestrator timeout handling (claim C4) -/

/-- C4, amended: a timeout on the handler-selection call returns the fixed
apology with `routing_mode = direct`, stores the query/response pair in
conversation memory and raises nothing; but a timeout on the synthesis call
(which runs whenever the proposed calls do not reduce to a single-handler
flow) propagates the `asyncio.TimeoutError` to the caller, and the
query/response pair is not stored. -/
theorem C4_timeout_handling_amended :
    (∀ (q : String) (synthesis : SelectionResp)
        (sub : AgentName → String → String) (memory : List (String × String)),
      orchestrator_invoke q .timeout synthesis sub memory =
        (.ok timeout_apology .direct, memory ++ [(q, timeout_apology)])) ∧
    (∀ (q : String) (content : Option String) (calls : List OToolCall)
        (sub : AgentName → String → String) (memory : List (String × String)),
      calls ≠ [] →
      ¬(classify_routing (((collapse_order_calls q calls).filterMap (fun tc =>
            (to_agent tc.name).map (fun a => (a, tc.query_arg.getD q)))).map
          Prod.fst) = .single ∧
        ((collapse_order_calls q calls).filterMap (fun tc =>
          (to_agent tc.name).map (fun a => (a, tc.query_arg.getD q)))).length = 1) →
      orchestrator_invoke q (.msg content calls) .timeout sub memory =
        (.raisedTimeout, memory)) := by
  constructor
  · intro q synthesis sub memory
    rfl
  · intro q content calls sub memory hcalls hnot
    unfold orchestrator_invoke
    dsimp only
    rw [if_neg hcalls, if_neg hnot]

/-- C4, counterexample to the claim as stated: two general-info calls force a
synthesis call; when it times out, `invoke` raises to the caller instead of
returning an apology, and the memory is left without the turn. -/
theorem C4_counterexample :
    orchestrator_invoke "q"
      (.msg none [⟨"1", "query_general_info", some "a"⟩,
        ⟨"2", "query_general_info", some "b"⟩])
      .timeout (fun _ _ => "resp") [] = (.raisedTimeout, []) := by
  decide

/-- C4, witness: both halves of the amended theorem at concrete inputs. -/
theorem C4_witness :
    orchestrator_invoke "hello" .timeout (.msg (some "x") [])
      (fun _ _ => "resp") [("p", "r")] =
      (.ok timeout_apology .direct, [("p", "r"), ("hello", timeout_apology)]) ∧
    orchestrator_invoke "q2"
      (.msg none [⟨"1", "query_general_info", some "a"⟩,
        ⟨"2", "query_general_info", some "b"⟩])
      .timeout (fun _ _ => "resp") [("p", "r")] = (.raisedTimeout, [("p", "r")]) :=
  ⟨C4_timeout_handling_amended.1 "hello" (.msg (some "x") [])
     (fun _ _ => "resp") [("p", "r")],
   C4_timeout_handling_amended.2 "q2" none
     [⟨"1", "query_general_info", some "a"⟩, ⟨"2", "query_general_info", some "b"⟩]
     (fun _ _ => "resp") [("p", "r")] (by simp) (by decide)⟩

/-! ## Theorems: loop boundedness (claim C6) and duplicate signatures (claim C8) -/

/-- As long as every remaining scripted step keeps the loop iterating, the
step budget is exhausted and the loop returns the too-many-steps apology,
having executed every step's tool calls. -/
lemma order_agent_go_clean (script : ℕ → AgentResp) :
    ∀ (n step : ℕ) (executed : List AToolCall),
      (∀ j, j < n → continuing_step (script (step + j))) →
      order_agent_go script step n executed =
        (.too_many_steps, executed ++ steps_calls script step n) := by
  intro n
  induction n with
  | zero => intro step executed _; simp [order_agent_go, steps_calls]
  | succ n ih =>
    intro step executed h
    obtain ⟨content, tool_calls, hstep, hne, hnd⟩ := h 0 (Nat.succ_pos n)
    rw [Nat.add_zero] at hstep
    simp only [order_agent_go]
    rw [hstep]
    dsimp only
    rw [if_neg hne, if_neg (by simp [hnd])]
    have hshift : ∀ j, j < n → continuing_step (script (step + 1 + j)) := by
      intro j hj
      have hh := h (j + 1) (by omega)
      rwa [show step + (j + 1) = step + 1 + j by omega] at hh
    rw [ih (step + 1) (executed ++ tool_calls) hshift]
    simp [steps_calls, hstep, resp_calls, List.append_assoc]

/-- C6, amended: when the provider proposes at least one tool call on every
step and no step carries two calls with the same signature, the order-agent
loop terminates after exactly the configured maximum number of steps (6) with
the fixed too-many-steps apology, having executed all six steps' tool calls
(the loop is a total function, so it never runs forever).  The
no-duplicate-signature hypothesis is forced by the counterexample: a step
with a duplicated signature aborts the turn with an internal error instead. -/
theorem C6_loop_boundedness_amended (script : ℕ → AgentResp)
    (h : ∀ s, s < order_agent_max_steps → continuing_step (script s)) :
    order_agent_invoke script =
      (.too_many_steps, steps_calls script 0 order_agent_max_steps) := by
  unfold order_agent_invoke
  have hh := order_agent_go_clean script order_agent_max_steps 0 []
    (fun j hj => by simpa using h j hj)
  simpa using hh

/-- A scripted provider that proposes the same (name, arguments) signature
twice on every step. -/
def dup_call_script : ℕ → AgentResp := fun _ =>
  .msg none [⟨"1", "view_cart", "\x7b\x7d"⟩, ⟨"2", "view_cart", "\x7b\x7d"⟩]

/-- C6, counterexample to the claim as stated: this provider returns at least
one (indeed two) tool calls on every step, yet the loop does not run six
steps and does not return the too-many-steps apology — it aborts immediately
with the duplicate-signature internal error. -/
theorem C6_counterexample :
    resp_calls (dup_call_script 0) ≠ [] ∧
    order_agent_invoke dup_call_script = (.fatal_duplicate, []) ∧
    (order_agent_invoke dup_call_script).1 ≠ .too_many_steps := by
  decide

/-- A scripted provider that proposes one fresh tool call on every step. -/
def busy_script : ℕ → AgentResp := fun _ =>
  .msg none [⟨"1", "view_cart", "\x7b\x7d"⟩]

/-- C6, witness: the amended theorem at a concrete always-calling provider. -/
theorem C6_witness :
    order_agent_invoke busy_script =
      (.too_many_steps, steps_calls busy_script 0 order_agent_max_steps) :=
  C6_loop_boundedness_amended busy_script
    (fun _ _ => ⟨none, [⟨"1", "view_cart", "\x7b\x7d"⟩], rfl, by decide, by decide⟩)

/-- If the first `i` scripted steps keep the loop iterating and step `i`
proposes two tool calls with the same signature, the loop aborts at step `i`
with the internal error, having executed exactly the calls of the clean
steps before it — none of step `i`'s calls is executed. -/
lemma order_agent_go_dup (script : ℕ → AgentResp) :
    ∀ (i rem step : ℕ) (executed : List AToolCall), i < rem →
      (∀ j, j < i → continuing_step (script (step + j))) →
      dup_sig (resp_calls (script (step + i))) = true →
      order_agent_go script step rem executed =
        (.fatal_duplicate, executed ++ steps_calls script step i) := by
  intro i
  induction i with
  | zero =>
    intro rem step executed hrem hclean hdup
    obtain ⟨rem', rfl⟩ : ∃ r, rem = r + 1 := ⟨rem - 1, by omega⟩
    rw [Nat.add_zero] at hdup
    cases hs : script step with
    | timeout => rw [hs] at hdup; simp [resp_calls, dup_sig] at hdup
    | msg content tool_calls =>
      rw [hs] at hdup
      simp only [resp_calls] at hdup
      have hne : tool_calls ≠ [] := by
        intro hnil
        rw [hnil] at hdup
        simp [dup_sig] at hdup
      simp only [order_agent_go]
      rw [hs]
      dsimp only
      rw [if_neg hne, if_pos hdup]
      simp [steps_calls]
  | succ i ih =>
    intro rem step executed hrem hclean hdup
    obtain ⟨rem', rfl⟩ : ∃ r, rem = r + 1 := ⟨rem - 1, by omega⟩
    obtain ⟨content, tool_calls, hstep, hne, hnd⟩ := hclean 0 (Nat.succ_pos i)
    rw [Nat.add_zero] at hstep
    simp only [order_agent_go]
    rw [hstep]
    dsimp only
    rw [if_neg hne, if_neg (by simp [hnd])]
    have hshift : ∀ j, j < i → continuing_step (script (step + 1 + j)) := by
      intro j hj
      have hh := hclean (j + 1) (by omega)
      rwa [show step + (j + 1) = step + 1 + j by omega] at hh
    have hdup2 : dup_sig (resp_calls (script (step + 1 + i))) = true := by
      rwa [show step + (i + 1) = step + 1 + i by omega] at hdup
    rw [ih rem' (step + 1) (executed ++ tool_calls) (by omega) hshift hdup2]
    simp [steps_calls, hstep, resp_calls, List.append_assoc]

/-- C8, confirmed: in every step of the order-agent loop, two proposed tool
calls with the same (name, normalized arguments) signature abort the turn
with the internal duplicate-signature error (a result distinct from any tool
output), executing none of that step's calls and not retrying; the preceding
steps, whose calls all had unique signatures, proceeded normally and executed
all of their calls. -/
theorem C8_duplicate_signature_fatal (script : ℕ → AgentResp) (i : ℕ)
    (hi : i < order_agent_max_steps)
    (hclean : ∀ j, j < i → continuing_step (script j))
    (hdup : dup_sig (resp_calls (script i)) = true) :
    order_agent_invoke script = (.fatal_duplicate, steps_calls script 0 i) := by
  unfold order_agent_invoke
  have hh := order_agent_go_dup script i order_agent_max_steps 0 [] hi
    (fun j hj => by simpa using hclean j hj) (by simpa using hdup)
  simpa using hh

/-- A scripted provider with one clean step followed by a step carrying a
duplicated signature. -/
def one_clean_then_dup_script : ℕ → AgentResp := fun s =>
  if s = 0 then .msg none [⟨"1", "view_cart", "\x7b\x7d"⟩]
  else .msg none [⟨"2", "purchase", "\x7b\x7d"⟩, ⟨"3", "purchase", "\x7b\x7d"⟩]

/-- C8, witness: the theorem at the concrete script — the clean first step is
executed, the duplicate second step aborts the turn unexecuted. -/
theorem C8_witness :
    order_agent_invoke one_clean_then_dup_script =
      (.fatal_duplicate, steps_calls one_clean_then_dup_script 0 1) :=
  C8_duplicate_signature_fatal one_clean_then_dup_script 1 (by decide)
    (fun j hj => by
      have h0 : j = 0 := Nat.lt_one_iff.mp hj
      subst h0
      exact ⟨none, [⟨"1", "view_cart", "\x7b\x7d"⟩], rfl, by decide, by decide⟩)
    (by decide)

end AgenticEcommerce
